import Mathlib

/-!
Shallow embedding of the FormWeaver batch-synthesis pipeline:
the Excel decoder (lib/excel-parser.ts, `parseExcelFile`), the PDF
generator (lib/pdf-generator.ts, `generatePDFs` and `hexToRgb`), the
ZIP archiver (lib/zip-archiver.ts, `createZipArchive`) and the
completion count shown by components/steps/Step3Generate.tsx.

JavaScript cell values are modelled by an inductive `CellValue` with
explicit falsiness and string coercion; the pdf-lib effects (template
load, font embedding, text drawing, document save) are parameters of a
`PdfLib` record, so the control flow of `generatePDFs` is embedded as a
pure function producing, per successful row, the list of draw calls the
code issues.
-/

namespace FormWeaver

/-- A spreadsheet cell as a JavaScript value (string, number, boolean,
null or undefined). -/
inductive CellValue where
  | str (s : String)
  | num (q : ℚ)
  | boolean (b : Bool)
  | null
  | undef
deriving Repr, DecidableEq

/-- JavaScript falsiness of a cell value: the empty string, the number 0,
false, null and undefined are falsy. -/
def jsFalsy : CellValue → Bool
  | .str s => s = ""
  | .num q => q = 0
  | .boolean b => !b
  | .null => true
  | .undef => true

/-- JavaScript String(...) coercion of a cell value. -/
def jsToString : CellValue → String
  | .str s => s
  | .num q => toString q
  | .boolean b => if b then "true" else "false"
  | .null => "null"
  | .undef => "undefined"

/-- A dataset row: a JavaScript object from column names to cell values,
as an association list with the object's key order. -/
abbrev Row := List (String × CellValue)

/-- The `ExcelData` interface of types/index.ts. -/
structure ExcelData where
  headers : List String
  columns : List String
  rows : List Row
deriving Repr, DecidableEq

/-- JavaScript object assignment rowObj[k] = v: overwrite the value in
place if the key exists, else append the key. -/
def setKey : Row → String → CellValue → Row
  | [], k, v => [(k, v)]
  | (k', v') :: rest, k, v =>
      if k' = k then (k', v) :: rest else (k', v') :: setKey rest k v

/-- One row object built by `parseExcelFile`: for each (filtered) header
at index i, rowObj[header] = row[i] || '' — a missing or falsy cell is
stored as the empty string. -/
def buildRow (headers : List String) (r : List CellValue) : Row :=
  (headers.enum).foldl
    (fun acc iv =>
      let cell := (r.get? iv.1).getD CellValue.undef
      setKey acc iv.2 (if jsFalsy cell then CellValue.str "" else cell))
    []

/-- lib/excel-parser.ts `parseExcelFile`, from the sheet rows produced by
sheet_to_json with header 1: the first row is cast to strings and its
falsy entries dropped (jsonData[0].filter(h => h)); each later row
becomes an object keyed by those headers with falsy cells replaced by
the empty string, and rows whose stored values are all empty strings
are dropped. -/
def parseExcelFile (headerRow : List String) (dataRows : List (List CellValue)) :
    ExcelData :=
  let headers := headerRow.filter (fun h => decide (h ≠ ""))
  let rows := (dataRows.map (buildRow headers)).filter
    (fun row => row.any (fun kv => decide (kv.2 ≠ CellValue.str "")))
  { headers := headers, columns := headers, rows := rows }

/-- A page or preview size in points/pixels. -/
structure Size where
  width : ℚ
  height : ℚ
deriving Repr, DecidableEq

/-- An rgb colour with components in [0, 1], as built by pdf-lib's rgb. -/
structure Rgb where
  r : ℚ
  g : ℚ
  b : ℚ
deriving Repr, DecidableEq

/-- Value of one hex digit, case-insensitive ([a-f\d] with the i flag). -/
def hexDigitVal (c : Char) : Option ℕ :=
  let n := c.toNat
  if 48 ≤ n ∧ n ≤ 57 then some (n - 48)
  else if 97 ≤ n ∧ n ≤ 102 then some (n - 87)
  else if 65 ≤ n ∧ n ≤ 70 then some (n - 55)
  else none

/-- parseInt of a two-hex-digit group, divided by 255. -/
def hexPair (c1 c2 : Char) : Option ℚ :=
  match hexDigitVal c1, hexDigitVal c2 with
  | some a, some b => some (((a * 16 + b : ℕ) : ℚ) / 255)
  | _, _ => none

/-- The body of lib/pdf-generator.ts `hexToRgb` after the optional '#'
has been stripped: exactly six hex digits in three groups, else black. -/
def hexToRgbList : List Char → Rgb
  | [c1, c2, c3, c4, c5, c6] =>
    match hexPair c1 c2, hexPair c3 c4, hexPair c5 c6 with
    | some r, some g, some b => ⟨r, g, b⟩
    | _, _, _ => ⟨0, 0, 0⟩
  | _ => ⟨0, 0, 0⟩

/-- Strip the optional leading '#' of the `hexToRgb` regex. -/
def stripHash : List Char → List Char
  | '#' :: rest => rest
  | cs => cs

/-- lib/pdf-generator.ts `hexToRgb`: match the whole string against
an optional '#' followed by exactly six hex digits; on a match divide
each group by 255, otherwise return black. -/
def hexToRgb (hex : String) : Rgb :=
  hexToRgbList (stripHash hex.toList)

/-- Whether a char list is exactly six hex digits. -/
def hexMatchesList : List Char → Bool
  | [c1, c2, c3, c4, c5, c6] =>
    (hexPair c1 c2).isSome && (hexPair c3 c4).isSome && (hexPair c5 c6).isSome
  | _ => false

/-- Whether the regex of `hexToRgb` matches the whole string. -/
def hexMatches (hex : String) : Bool :=
  hexMatchesList (stripHash hex.toList)

/-- The `PDFField` interface of types/index.ts (style members the
generator never reads are omitted; optional members are `Option`). -/
structure PDFField where
  id : String
  columnName : String
  isQRCode : Bool
  pageIndex : Int
  x : ℚ
  y : ℚ
  width : ℚ
  height : ℚ
  scaleX : Option ℚ
  scaleY : Option ℚ
  angle : Option ℚ
  fontSize : ℚ
  fill : Option String
  fontFamily : String
deriving Repr, DecidableEq

/-- JavaScript v || d for a number. -/
def qOr (v : ℚ) (d : ℚ) : ℚ := if v = 0 then d else v

/-- JavaScript v || d for an optional number (undefined or 0 gives d). -/
def qOptOr (v : Option ℚ) (d : ℚ) : ℚ :=
  match v with
  | none => d
  | some x => if x = 0 then d else x

/-- JavaScript v || d for a string. -/
def sOr (v : String) (d : String) : String := if v = "" then d else v

/-- One drawing call issued on a PDF page. `generatePDFs` only ever
issues `text` (page.drawText); `image` is the call a code-image branch
would issue and never occurs. -/
inductive DrawOp where
  | text (value : String) (x y size : ℚ) (color : Rgb) (rotate : ℚ)
  | image (value : String) (x y w h : ℚ)
deriving Repr, DecidableEq

/-- Whether a draw call places an image. -/
def DrawOp.isImage : DrawOp → Bool
  | .image _ _ _ _ _ => true
  | .text _ _ _ _ _ _ => false

/-- An embedded font: pdf-lib's font.heightAtSize. -/
structure Font where
  heightAtSize : ℚ → ℚ

/-- The pdf-lib effects `generatePDFs` calls into: the template load
result (the page sizes, or failure), font loading and embedding per
family name, whether page.drawText succeeds on a call, and whether
pdfDoc.save succeeds given the draw calls issued on the document. -/
structure PdfLib where
  load : Option (List Size)
  embedFont : String → Option Font
  drawOk : DrawOp → Bool
  saveOk : List DrawOp → Bool

/-- Line 112 of lib/pdf-generator.ts: String(row[field.columnName] || '').
A missing or falsy cell resolves to the empty string. -/
def resolvedValue (row : Row) (field : PDFField) : String :=
  let rawVal := (List.lookup field.columnName row).getD CellValue.undef
  jsToString (if jsFalsy rawVal then CellValue.str "" else rawVal)

/-- The per-field body of `generatePDFs` (lib/pdf-generator.ts lines
96-153): validate the 1-based page assignment, find the preview size,
resolve the row value (falsy gives empty string), skip empty or
"undefined" values, load the font, compute the transformed position and
size, and draw the text; any per-field failure yields `none`. -/
def processField (lib : PdfLib) (pages : List Size)
    (previewSizes : List (Int × Size)) (row : Row) (field : PDFField) :
    Option DrawOp :=
  let pageIndex : Int := field.pageIndex - 1
  if pageIndex < 0 ∨ (pages.length : Int) ≤ pageIndex then none
  else
    match pages.get? pageIndex.toNat with
    | none => none
    | some page =>
      match List.lookup field.pageIndex previewSizes with
      | none => none
      | some previewSize =>
        let scaleFactor := page.width / previewSize.width
        let value := resolvedValue row field
        if value = "" ∨ value = "undefined" then none
        else
          match lib.embedFont (sOr field.fontFamily "Inter") with
          | none => none
          | some font =>
            let pdfX := field.x * scaleFactor
            let pdfFontSize := qOr field.fontSize 12 * qOptOr field.scaleX 1 * scaleFactor
            let fontHeightInPdf := font.heightAtSize pdfFontSize
            let pdfY := page.height - field.y * scaleFactor - fontHeightInPdf * (4 / 5)
            let color := hexToRgb (field.fill.getD "#000000")
            let op := DrawOp.text value pdfX pdfY pdfFontSize color (-(qOptOr field.angle 0))
            if lib.drawOk op then some op else none

/-- The per-row body of `generatePDFs`: load the template, run every
field through `processField` (skipped fields contribute nothing), then
save; a load or save failure fails the whole row. -/
def processRow (lib : PdfLib) (previewSizes : List (Int × Size))
    (fields : List PDFField) (row : Row) : Option (List DrawOp) :=
  match lib.load with
  | none => none
  | some pages =>
    let ops := fields.filterMap (processField lib pages previewSizes row)
    if lib.saveOk ops then some ops else none

/-- lib/pdf-generator.ts `generatePDFs`: process the rows in order,
catching any whole-row failure and continuing, and return the buffers
of the successful rows in order. -/
def generatePDFs (lib : PdfLib) (excelData : ExcelData)
    (fields : List PDFField) (previewSizes : List (Int × Size)) :
    List (List DrawOp) :=
  excelData.rows.filterMap (processRow lib previewSizes fields)

/-- String.prototype.padStart(3, '0'). -/
def padStart3Zeros (s : String) : String :=
  if 3 ≤ s.length then s else String.mk (List.replicate (3 - s.length) '0') ++ s

/-- lib/zip-archiver.ts `createZipArchive`: the i-th buffer (0-based)
becomes the entry named baseFileName_{i+1 zero-padded to 3}.pdf. -/
def createZipArchive (pdfBuffers : List (List DrawOp)) (baseFileName : String) :
    List (String × List DrawOp) :=
  pdfBuffers.enum.map
    (fun ib => (baseFileName ++ "_" ++ padStart3Zeros (toString (ib.1 + 1)) ++ ".pdf", ib.2))

/-- The document count shown on the completion screen of
components/steps/Step3Generate.tsx (lines 86 and 92): the number of
input rows, excelData.rows.length. -/
def step3CompletionCount (excelData : ExcelData) : Nat :=
  excelData.rows.length

/-- A pdf-lib environment in which everything succeeds: one 612 x 792
page, every font family resolves to a font whose height at a size is
that size, and drawing and saving always succeed. -/
def libOk : PdfLib :=
  ⟨some [⟨612, 792⟩], fun _ => some ⟨fun q => q⟩, fun _ => true, fun _ => true⟩

/-- A pdf-lib environment like `libOk` except that saving a document
throws whenever the document contains the drawn text "poison". -/
def libPoison : PdfLib :=
  ⟨some [⟨612, 792⟩], fun _ => some ⟨fun q => q⟩, fun _ => true,
   fun ops => !(ops.any (fun op =>
     match op with
     | .text v _ _ _ _ _ => v = "poison"
     | .image _ _ _ _ _ => false))⟩

/-- A pdf-lib environment like `libOk` except that every save throws. -/
def libSaveFails : PdfLib :=
  ⟨some [⟨612, 792⟩], fun _ => some ⟨fun q => q⟩, fun _ => true, fun _ => false⟩

/-- A field placement bound to a column, at editor position (10, 20) on
the given page, with the editor defaults of Step2Editor.tsx. -/
def mkField (col : String) (pageIdx : Int) : PDFField :=
  { id := col, columnName := col, isQRCode := false, pageIndex := pageIdx, x := 10, y := 20,
    width := 150, height := 20, scaleX := some 1, scaleY := some 1, angle := some 0,
    fontSize := 12, fill := some "#000000", fontFamily := "Inter" }

/-- `mkField` with the isQRCode flag set, as Step2Editor produces for a
column dropped as a QR code. -/
def mkQRField (col : String) (pageIdx : Int) : PDFField :=
  { mkField col pageIdx with isQRCode := true }

lemma processField_eq_none_of_skip_value (lib : PdfLib) (pages : List Size)
    (previewSizes : List (Int × Size)) (row : Row) (field : PDFField)
    (h : resolvedValue row field = "" ∨ resolvedValue row field = "undefined") :
    processField lib pages previewSizes row field = none := by
  simp only [processField]
  split
  · rfl
  split
  · rfl
  split
  · rfl
  · rfl

lemma processField_eq_none_of_bad_page (lib : PdfLib) (pages : List Size)
    (previewSizes : List (Int × Size)) (row : Row) (field : PDFField)
    (h : field.pageIndex - 1 < 0 ∨ (pages.length : Int) ≤ field.pageIndex - 1) :
    processField lib pages previewSizes row field = none := by
  simp only [processField]
  rw [if_pos h]

lemma processField_eq_none_of_no_preview (lib : PdfLib) (pages : List Size)
    (previewSizes : List (Int × Size)) (row : Row) (field : PDFField)
    (h : List.lookup field.pageIndex previewSizes = none) :
    processField lib pages previewSizes row field = none := by
  simp only [processField, h]
  split
  · rfl
  cases hpg : pages.get? (field.pageIndex - 1).toNat with
  | none => rfl
  | some page => rfl

lemma processField_eq_none_of_no_font (lib : PdfLib) (pages : List Size)
    (previewSizes : List (Int × Size)) (row : Row) (field : PDFField)
    (h : lib.embedFont (sOr field.fontFamily "Inter") = none) :
    processField lib pages previewSizes row field = none := by
  simp only [processField, h]
  split
  · rfl
  split
  · rfl
  split
  · rfl
  split <;> rfl

lemma processField_some_implies_drawOk (lib : PdfLib) (pages : List Size)
    (previewSizes : List (Int × Size)) (row : Row) (field : PDFField) (op : DrawOp)
    (h : processField lib pages previewSizes row field = some op) :
    lib.drawOk op = true := by
  simp only [processField] at h
  split at h
  · cases h
  · split at h
    · cases h
    · split at h
      · cases h
      · split at h
        · cases h
        · split at h
          · cases h
          · split at h
            · injection h with h
              subst h
              assumption
            · cases h

lemma filterMap_append_cons_none {α β : Type} (f : α → Option β)
    (l1 l2 : List α) (a : α) (h : f a = none) :
    (l1 ++ a :: l2).filterMap f = (l1 ++ l2).filterMap f := by
  simp [List.filterMap_append, List.filterMap_cons, h]

lemma processRow_erase_skipped (lib : PdfLib) (previewSizes : List (Int × Size))
    (row : Row) (field : PDFField) (fields1 fields2 : List PDFField)
    (h : ∀ pages, processField lib pages previewSizes row field = none) :
    processRow lib previewSizes (fields1 ++ field :: fields2) row =
      processRow lib previewSizes (fields1 ++ fields2) row := by
  have key : ∀ pages : List Size,
      List.filterMap (processField lib pages previewSizes row) (fields1 ++ field :: fields2) =
        List.filterMap (processField lib pages previewSizes row) (fields1 ++ fields2) :=
    fun pages => filterMap_append_cons_none _ _ _ _ (h pages)
  simp only [processRow, key]

lemma processRow_erase_skipped_of_load (lib : PdfLib) (previewSizes : List (Int × Size))
    (row : Row) (field : PDFField) (fields1 fields2 : List PDFField) (pages : List Size)
    (hload : lib.load = some pages)
    (h : processField lib pages previewSizes row field = none) :
    processRow lib previewSizes (fields1 ++ field :: fields2) row =
      processRow lib previewSizes (fields1 ++ fields2) row := by
  simp only [processRow, hload]
  rw [filterMap_append_cons_none _ _ _ _ h]

lemma processRow_isSome_of_save (lib : PdfLib) (previewSizes : List (Int × Size))
    (fields : List PDFField) (row : Row) (pages : List Size)
    (hload : lib.load = some pages)
    (hsave : lib.saveOk (fields.filterMap (processField lib pages previewSizes row)) = true) :
    (processRow lib previewSizes fields row).isSome = true := by
  unfold processRow
  rw [hload]
  simp [hsave]

lemma length_filterMap_eq_length_filter_isSome {α β : Type} (f : α → Option β)
    (l : List α) :
    (l.filterMap f).length = (l.filter (fun a => (f a).isSome)).length := by
  induction l with
  | nil => rfl
  | cons a t ih =>
    cases hfa : f a <;> simp [List.filterMap_cons, List.filter_cons, hfa, ih]

lemma hexDigitVal_le15 {c : Char} {a : ℕ} (h : hexDigitVal c = some a) : a ≤ 15 := by
  simp only [hexDigitVal] at h
  split_ifs at h with h1 h2 h3 <;> simp_all <;> omega

lemma hexPair_mem_unit {c1 c2 : Char} {q : ℚ} (h : hexPair c1 c2 = some q) :
    0 ≤ q ∧ q ≤ 1 := by
  unfold hexPair at h
  cases h1 : hexDigitVal c1 with
  | none => rw [h1] at h; cases h
  | some a =>
    cases h2 : hexDigitVal c2 with
    | none => rw [h1, h2] at h; cases h
    | some b =>
      rw [h1, h2] at h
      injection h with h
      subst h
      refine ⟨by positivity, ?_⟩
      rw [div_le_one (by norm_num : (0 : ℚ) < 255)]
      have ha := hexDigitVal_le15 h1
      have hb := hexDigitVal_le15 h2
      have hab : (a * 16 + b : ℕ) ≤ 255 := by omega
      exact_mod_cast hab

lemma hexToRgbList_in_range (cs : List Char) :
    0 ≤ (hexToRgbList cs).r ∧ (hexToRgbList cs).r ≤ 1 ∧
    0 ≤ (hexToRgbList cs).g ∧ (hexToRgbList cs).g ≤ 1 ∧
    0 ≤ (hexToRgbList cs).b ∧ (hexToRgbList cs).b ≤ 1 := by
  unfold hexToRgbList
  split
  · split
    · rename_i r g b hr hg hb
      exact ⟨(hexPair_mem_unit hr).1, (hexPair_mem_unit hr).2,
        (hexPair_mem_unit hg).1, (hexPair_mem_unit hg).2,
        (hexPair_mem_unit hb).1, (hexPair_mem_unit hb).2⟩
    · norm_num
  · norm_num

lemma hexToRgbList_eq_black {cs : List Char} (h : hexMatchesList cs = false) :
    hexToRgbList cs = ⟨0, 0, 0⟩ := by
  unfold hexToRgbList
  split
  · rename_i c1 c2 c3 c4 c5 c6
    split
    · rename_i r g b hr hg hb
      simp [hexMatchesList, hr, hg, hb] at h
    · rfl
  · rfl

/-- Claim C10: hexToRgb is total — for every input string that does not
match an optional '#' followed by exactly six hex digits (including
malformed or 3-digit hex), it returns black, and for every input each
returned colour component lies in [0, 1], so the fill colour never makes
the draw call fail. -/
theorem hexToRgb_total_and_in_range (hex : String) :
    (hexMatches hex = false → hexToRgb hex = ⟨0, 0, 0⟩) ∧
    (0 ≤ (hexToRgb hex).r ∧ (hexToRgb hex).r ≤ 1 ∧
     0 ≤ (hexToRgb hex).g ∧ (hexToRgb hex).g ≤ 1 ∧
     0 ≤ (hexToRgb hex).b ∧ (hexToRgb hex).b ≤ 1) :=
  ⟨fun h => hexToRgbList_eq_black h, hexToRgbList_in_range (stripHash hex.toList)⟩

/-- Witness for C10: the malformed colour "zzz" and the 3-digit hex
"#abc" both yield black, and the components of a matching colour are in
range. -/
theorem hexToRgb_total_and_in_range_witness :
    hexToRgb "zzz" = ⟨0, 0, 0⟩ ∧ hexToRgb "#abc" = ⟨0, 0, 0⟩ ∧
    0 ≤ (hexToRgb "#102030").r ∧ (hexToRgb "#102030").r ≤ 1 :=
  ⟨(hexToRgb_total_and_in_range "zzz").1 (by rfl),
   (hexToRgb_total_and_in_range "#abc").1 (by rfl),
   (hexToRgb_total_and_in_range "#102030").2.1,
   (hexToRgb_total_and_in_range "#102030").2.2.1⟩

/-- Claim C2: when the page assignment and preview size resolve, the
preview width is positive, the value is non-skippable and the font
embeds, the coordinate transform inside generatePDFs computes
scaleFactor = nativeWidth / previewWidth, nativeX = x * scaleFactor,
nativeFontSize = (fontSize or 12) * (scaleX or 1) * scaleFactor,
nativeY = nativeHeight - y * scaleFactor - heightAtSize(nativeFontSize) * 0.8,
and the rotation passed to the writer is the negative of the editor
angle. -/
theorem coordinate_transform_formulas
    (lib : PdfLib) (pages : List Size) (previewSizes : List (Int × Size))
    (row : Row) (field : PDFField) (page previewSize : Size) (font : Font)
    (hlow : 0 ≤ field.pageIndex - 1)
    (hhigh : field.pageIndex - 1 < (pages.length : Int))
    (hpage : pages.get? (field.pageIndex - 1).toNat = some page)
    (hpv : List.lookup field.pageIndex previewSizes = some previewSize)
    (hpw : 0 < previewSize.width)
    (hval1 : resolvedValue row field ≠ "")
    (hval2 : resolvedValue row field ≠ "undefined")
    (hfont : lib.embedFont (sOr field.fontFamily "Inter") = some font)
    (hdraw : ∀ op, lib.drawOk op = true) :
    processField lib pages previewSizes row field =
      some (DrawOp.text (resolvedValue row field)
        (field.x * (page.width / previewSize.width))
        (page.height - field.y * (page.width / previewSize.width) -
          font.heightAtSize
            (qOr field.fontSize 12 * qOptOr field.scaleX 1 * (page.width / previewSize.width)) *
            (4 / 5))
        (qOr field.fontSize 12 * qOptOr field.scaleX 1 * (page.width / previewSize.width))
        (hexToRgb (field.fill.getD "#000000"))
        (-(qOptOr field.angle 0))) := by
  simp only [processField, hpage, hpv, hfont]
  rw [if_neg (by omega : ¬(field.pageIndex - 1 < 0 ∨ (pages.length : Int) ≤ field.pageIndex - 1))]
  rw [if_neg (not_or.mpr ⟨hval1, hval2⟩)]
  rw [hdraw]
  simp

/-- Witness for C2: a 612 x 792 page previewed at 306 x 396 gives scale
factor 2, so a field at editor (10, 20) with font size 12 lands at
native x 20, font size 24, y = 792 - 40 - 24 * 0.8, rotation 0. -/
theorem coordinate_transform_formulas_witness :
    processField libOk [⟨612, 792⟩] [(1, ⟨306, 396⟩)] [("A", CellValue.str "v")]
        (mkField "A" 1) =
      some (DrawOp.text "v" (10 * (612 / 306))
        (792 - 20 * (612 / 306) - (12 * 1 * (612 / 306)) * (4 / 5))
        (12 * 1 * (612 / 306)) (hexToRgb "#000000") (-(0 : ℚ))) := by
  have h := coordinate_transform_formulas libOk [⟨612, 792⟩] [(1, ⟨306, 396⟩)]
    [("A", CellValue.str "v")] (mkField "A" 1) ⟨612, 792⟩ ⟨306, 396⟩ ⟨fun q => q⟩
    (by decide) (by decide) (by rfl) (by rfl) (by norm_num) (by decide) (by decide)
    (by rfl) (fun op => rfl)
  exact h

/-- Claim C4: if the row's value for the field's bound column is the
empty string or the literal token "undefined", generatePDFs skips that
field for that row without raising an error, while every other field of
the same row is processed normally (removing the skipped field does not
change the row's result). -/
theorem empty_or_undefined_value_skips_field
    (lib : PdfLib) (pages : List Size) (previewSizes : List (Int × Size))
    (row : Row) (field : PDFField) (fields1 fields2 : List PDFField)
    (hv : List.lookup field.columnName row = some (CellValue.str "") ∨
          List.lookup field.columnName row = some (CellValue.str "undefined")) :
    processField lib pages previewSizes row field = none ∧
    processRow lib previewSizes (fields1 ++ field :: fields2) row =
      processRow lib previewSizes (fields1 ++ fields2) row := by
  have hval : resolvedValue row field = "" ∨ resolvedValue row field = "undefined" := by
    rcases hv with h | h <;> simp [resolvedValue, h, jsFalsy, jsToString]
  exact ⟨processField_eq_none_of_skip_value _ _ _ _ _ hval,
    processRow_erase_skipped _ _ _ _ _ _
      (fun pages => processField_eq_none_of_skip_value _ _ _ _ _ hval)⟩

/-- Witness for C4: a row where column A is empty and column B is "ok";
the field bound to A is skipped and removing it leaves the row's result
unchanged. -/
theorem empty_or_undefined_value_skips_field_witness :
    processField libOk [⟨612, 792⟩] [(1, ⟨612, 792⟩)]
        [("A", CellValue.str ""), ("B", CellValue.str "ok")] (mkField "A" 1) = none ∧
    processRow libOk [(1, ⟨612, 792⟩)] ([] ++ mkField "A" 1 :: [mkField "B" 1])
        [("A", CellValue.str ""), ("B", CellValue.str "ok")] =
      processRow libOk [(1, ⟨612, 792⟩)] ([] ++ [mkField "B" 1])
        [("A", CellValue.str ""), ("B", CellValue.str "ok")] :=
  empty_or_undefined_value_skips_field libOk [⟨612, 792⟩] [(1, ⟨612, 792⟩)]
    [("A", CellValue.str ""), ("B", CellValue.str "ok")] (mkField "A" 1)
    [] [mkField "B" 1] (Or.inl (by rfl))

/-- Claim C5: each per-field error condition — page assignment out of
the template's 1..pageCount range, missing preview size for the field's
page, font load failure, or draw failure — causes only that field to be
skipped: the field yields no draw call, removing it does not change the
row's result, and when the save succeeds the row still produces an
output buffer. -/
theorem per_field_errors_skip_only_that_field
    (lib : PdfLib) (pages : List Size) (previewSizes : List (Int × Size))
    (row : Row) (field : PDFField) (fields1 fields2 : List PDFField)
    (hload : lib.load = some pages) :
    ((field.pageIndex - 1 < 0 ∨ (pages.length : Int) ≤ field.pageIndex - 1) →
        processField lib pages previewSizes row field = none) ∧
    (List.lookup field.pageIndex previewSizes = none →
        processField lib pages previewSizes row field = none) ∧
    (lib.embedFont (sOr field.fontFamily "Inter") = none →
        processField lib pages previewSizes row field = none) ∧
    (∀ op, processField lib pages previewSizes row field = some op →
        lib.drawOk op = true) ∧
    (processField lib pages previewSizes row field = none →
        processRow lib previewSizes (fields1 ++ field :: fields2) row =
          processRow lib previewSizes (fields1 ++ fields2) row) ∧
    (lib.saveOk ((fields1 ++ field :: fields2).filterMap
        (processField lib pages previewSizes row)) = true →
        (processRow lib previewSizes (fields1 ++ field :: fields2) row).isSome = true) :=
  ⟨processField_eq_none_of_bad_page lib pages previewSizes row field,
   processField_eq_none_of_no_preview lib pages previewSizes row field,
   processField_eq_none_of_no_font lib pages previewSizes row field,
   fun op => processField_some_implies_drawOk lib pages previewSizes row field op,
   fun h => processRow_erase_skipped_of_load lib previewSizes row field
     fields1 fields2 pages hload h,
   fun hsave => processRow_isSome_of_save lib previewSizes
     (fields1 ++ field :: fields2) row pages hload hsave⟩

/-- Witness for C5: a field placed on page 7 of a one-page template is
skipped, removing it leaves the row unchanged, and the row still
produces a buffer. -/
theorem per_field_errors_skip_only_that_field_witness :
    processField libOk [⟨612, 792⟩] [(1, ⟨612, 792⟩)] [("A", CellValue.str "v")]
        (mkField "A" 7) = none ∧
    (processRow libOk [(1, ⟨612, 792⟩)] ([] ++ mkField "A" 7 :: [mkField "A" 1])
        [("A", CellValue.str "v")]).isSome = true := by
  have h := per_field_errors_skip_only_that_field libOk [⟨612, 792⟩] [(1, ⟨612, 792⟩)]
    [("A", CellValue.str "v")] (mkField "A" 7) [] [mkField "A" 1] (by rfl)
  exact ⟨h.1 (by decide), h.2.2.2.2.2 (by rfl)⟩

/-- Claim C3: a failed row is skipped and synthesis continues; the
result is one buffer per successful row, in input row order with no gap
markers — 5 input rows with row 3 failing yield exactly the 4 buffers
[b1, b2, b4, b5] — and in general the output length is the number of
successful rows. -/
theorem failed_row_skipped_order_preserved
    (lib : PdfLib) (previewSizes : List (Int × Size)) (fields : List PDFField)
    (hs cs : List String) (r1 r2 r3 r4 r5 : Row) (b1 b2 b4 b5 : List DrawOp)
    (h1 : processRow lib previewSizes fields r1 = some b1)
    (h2 : processRow lib previewSizes fields r2 = some b2)
    (h3 : processRow lib previewSizes fields r3 = none)
    (h4 : processRow lib previewSizes fields r4 = some b4)
    (h5 : processRow lib previewSizes fields r5 = some b5) :
    generatePDFs lib ⟨hs, cs, [r1, r2, r3, r4, r5]⟩ fields previewSizes =
      [b1, b2, b4, b5] ∧
    ∀ data : ExcelData, (generatePDFs lib data fields previewSizes).length =
      (data.rows.filter
        (fun r => (processRow lib previewSizes fields r).isSome)).length := by
  constructor
  · simp [generatePDFs, List.filterMap_cons, h1, h2, h3, h4, h5]
  · intro data
    exact length_filterMap_eq_length_filter_isSome _ data.rows

/-- Witness for C3: five concrete rows where row 3's drawn value makes
the save throw produce exactly four buffers, in input order. -/
theorem failed_row_skipped_order_preserved_witness :
    generatePDFs libPoison
        ⟨["A"], ["A"],
          [[("A", CellValue.str "a")], [("A", CellValue.str "b")],
           [("A", CellValue.str "poison")], [("A", CellValue.str "d")],
           [("A", CellValue.str "e")]]⟩
        [mkField "A" 1] [(1, ⟨612, 792⟩)] =
      [[DrawOp.text "a" (10 * (612 / 612))
          (792 - 20 * (612 / 612) - (12 * 1 * (612 / 612)) * (4 / 5))
          (12 * 1 * (612 / 612)) (hexToRgb "#000000") (-(0 : ℚ))],
       [DrawOp.text "b" (10 * (612 / 612))
          (792 - 20 * (612 / 612) - (12 * 1 * (612 / 612)) * (4 / 5))
          (12 * 1 * (612 / 612)) (hexToRgb "#000000") (-(0 : ℚ))],
       [DrawOp.text "d" (10 * (612 / 612))
          (792 - 20 * (612 / 612) - (12 * 1 * (612 / 612)) * (4 / 5))
          (12 * 1 * (612 / 612)) (hexToRgb "#000000") (-(0 : ℚ))],
       [DrawOp.text "e" (10 * (612 / 612))
          (792 - 20 * (612 / 612) - (12 * 1 * (612 / 612)) * (4 / 5))
          (12 * 1 * (612 / 612)) (hexToRgb "#000000") (-(0 : ℚ))]] :=
  (failed_row_skipped_order_preserved libPoison [(1, ⟨612, 792⟩)] [mkField "A" 1]
    ["A"] ["A"] _ _ _ _ _ _ _ _ _
    (by rfl) (by rfl) (by rfl) (by rfl) (by rfl)).1

/-- Claim C6: createZipArchive names the i-th buffer (0-based)
baseName_{i+1 zero-padded to 3 digits}.pdf, with indices dense over the
output list; three buffers with base name "Doc" give Doc_001.pdf,
Doc_002.pdf, Doc_003.pdf. -/
theorem zip_entry_names_dense
    (pdfBuffers : List (List DrawOp)) (baseFileName : String) :
    (createZipArchive pdfBuffers baseFileName).length = pdfBuffers.length ∧
    (∀ i e, (createZipArchive pdfBuffers baseFileName)[i]? = some e →
        e.1 = baseFileName ++ "_" ++ padStart3Zeros (toString (i + 1)) ++ ".pdf" ∧
        pdfBuffers[i]? = some e.2) ∧
    (createZipArchive [[], [], []] "Doc").map Prod.fst =
      ["Doc_001.pdf", "Doc_002.pdf", "Doc_003.pdf"] := by
  refine ⟨by simp [createZipArchive], ?_, by rfl⟩
  intro i e h
  simp only [createZipArchive, List.getElem?_map, List.getElem?_enum] at h
  cases hb : pdfBuffers[i]? with
  | none => rw [hb] at h; cases h
  | some b =>
    rw [hb] at h
    injection h with h
    subst h
    exact ⟨rfl, rfl⟩

/-- Witness for C6: the second entry of a three-buffer archive with base
name "Doc" is named Doc_002.pdf and holds the second buffer. -/
theorem zip_entry_names_dense_witness :
    ("Doc_002.pdf" : String) = "Doc" ++ "_" ++ padStart3Zeros (toString (1 + 1)) ++ ".pdf" ∧
    (createZipArchive [[], [DrawOp.image "q" 1 2 3 4], []] "Doc")[1]? =
      some ("Doc_002.pdf", [DrawOp.image "q" 1 2 3 4]) := by
  have h := (zip_entry_names_dense [[], [DrawOp.image "q" 1 2 3 4], []] "Doc").2.1 1
    ("Doc_002.pdf", [DrawOp.image "q" 1 2 3 4]) (by rfl)
  exact ⟨h.1, by rfl⟩

lemma mem_setKey {row : Row} {k : String} {v : CellValue} {kv : String × CellValue}
    (h : kv ∈ setKey row k v) : kv.2 = v ∨ kv ∈ row := by
  induction row with
  | nil =>
    simp only [setKey, List.mem_singleton] at h
    left
    rw [h]
  | cons a t ih =>
    simp only [setKey] at h
    split at h
    · rcases List.mem_cons.mp h with h | h
      · left; rw [h]
      · right; exact List.mem_cons_of_mem _ h
    · rcases List.mem_cons.mp h with h | h
      · right; rw [h]; exact List.mem_cons_self _ _
      · rcases ih h with h | h
        · left; exact h
        · right; exact List.mem_cons_of_mem _ h

lemma buildRow_aux (hs : List (ℕ × String)) (r : List CellValue) :
    ∀ acc : Row, (∀ kv ∈ acc, jsFalsy kv.2 = true → kv.2 = CellValue.str "") →
      ∀ kv ∈ hs.foldl (fun acc iv =>
          let cell := (r.get? iv.1).getD CellValue.undef
          setKey acc iv.2 (if jsFalsy cell then CellValue.str "" else cell)) acc,
        jsFalsy kv.2 = true → kv.2 = CellValue.str "" := by
  induction hs with
  | nil => intro acc hacc kv hkv; exact hacc kv hkv
  | cons iv t ih =>
    intro acc hacc kv hkv
    refine ih _ ?_ kv hkv
    intro kv2 hkv2 hf
    rcases mem_setKey hkv2 with h | h
    · rw [h] at hf ⊢
      split_ifs at hf ⊢ with hc
      · rfl
      · exact absurd hf hc
    · exact hacc kv2 h hf

lemma buildRow_falsy_stored_empty (headers : List String) (r : List CellValue) :
    ∀ kv ∈ buildRow headers r, jsFalsy kv.2 = true → kv.2 = CellValue.str "" :=
  buildRow_aux headers.enum r [] (by intro kv h; cases h)

lemma processField_some_not_image (lib : PdfLib) (pages : List Size)
    (previewSizes : List (Int × Size)) (row : Row) (field : PDFField) (op : DrawOp)
    (h : processField lib pages previewSizes row field = some op) :
    op.isImage = false := by
  simp only [processField] at h
  split at h
  · cases h
  · split at h
    · cases h
    · split at h
      · cases h
      · split at h
        · cases h
        · split at h
          · cases h
          · split at h
            · injection h with h
              subst h
              rfl
            · cases h

/-- Counterexample to C7 as stated: a sheet whose header row repeats the
non-empty name "A" yields the columns list ["A", "A"], which is not a
list of distinct names. -/
theorem parse_columns_not_distinct :
    (parseExcelFile ["A", "A"] [[CellValue.str "x", CellValue.str "y"]]).columns =
      ["A", "A"] ∧
    ¬ (parseExcelFile ["A", "A"]
        [[CellValue.str "x", CellValue.str "y"]]).columns.Nodup := by
  exact ⟨rfl, by decide⟩

/-- Claim C7 amended: parseExcelFile returns a columns list whose names
are non-empty (empty header cells are dropped, but duplicate names are
retained), and a rows list from which every row whose stored values are
all empty has been dropped. -/
theorem parse_columns_nonempty_rows_filtered (headerRow : List String)
    (dataRows : List (List CellValue)) :
    (∀ c ∈ (parseExcelFile headerRow dataRows).columns, c ≠ "") ∧
    (∀ row ∈ (parseExcelFile headerRow dataRows).rows,
        ∃ kv ∈ row, kv.2 ≠ CellValue.str "") := by
  constructor
  · intro c hc
    simp only [parseExcelFile, List.mem_filter, decide_eq_true_eq] at hc
    exact hc.2
  · intro row hrow
    simp only [parseExcelFile, List.mem_filter, List.any_eq_true,
      decide_eq_true_eq] at hrow
    obtain ⟨_, kv, hkv, hne⟩ := hrow
    exact ⟨kv, hkv, hne⟩

/-- Witness for C7 (amended): the sheet with headers ["A", ""] and one
data row keeps the non-empty column "A", and the surviving row has a
non-empty stored value. -/
theorem parse_columns_nonempty_rows_filtered_witness :
    ("A" : String) ≠ "" ∧
    ∃ kv ∈ ([("A", CellValue.str "k")] : Row), kv.2 ≠ CellValue.str "" := by
  have h := parse_columns_nonempty_rows_filtered ["A", ""] [[CellValue.str "k"]]
  exact ⟨h.1 "A" (by decide), h.2 [("A", CellValue.str "k")] (by decide)⟩

/-- Counterexample to C8 as stated: with one input row whose save fails,
generatePDFs returns no buffers, yet the completion screen reports 1
document created. -/
theorem completion_count_mismatch :
    step3CompletionCount ⟨["A"], ["A"], [[("A", CellValue.str "x")]]⟩ = 1 ∧
    (generatePDFs libSaveFails ⟨["A"], ["A"], [[("A", CellValue.str "x")]]⟩
        [mkField "A" 1] [(1, ⟨612, 792⟩)]).length = 0 ∧
    step3CompletionCount ⟨["A"], ["A"], [[("A", CellValue.str "x")]]⟩ ≠
      (generatePDFs libSaveFails ⟨["A"], ["A"], [[("A", CellValue.str "x")]]⟩
        [mkField "A" 1] [(1, ⟨612, 792⟩)]).length := by
  refine ⟨rfl, by rfl, ?_⟩
  intro h
  rw [show (generatePDFs libSaveFails ⟨["A"], ["A"], [[("A", CellValue.str "x")]]⟩
    [mkField "A" 1] [(1, ⟨612, 792⟩)]).length = 0 from rfl] at h
  cases h

/-- Claim C8 amended: the completion outcome reports the number of input
rows (excelData.rows.length), not the length of the buffer list; the two
agree exactly when every row of the batch succeeds. -/
theorem completion_count_is_input_rows
    (lib : PdfLib) (data : ExcelData) (fields : List PDFField)
    (previewSizes : List (Int × Size)) :
    step3CompletionCount data = data.rows.length ∧
    ((∀ r ∈ data.rows, (processRow lib previewSizes fields r).isSome = true) →
      step3CompletionCount data = (generatePDFs lib data fields previewSizes).length) := by
  refine ⟨rfl, fun h => ?_⟩
  unfold generatePDFs step3CompletionCount
  rw [length_filterMap_eq_length_filter_isSome, List.filter_eq_self.mpr h]

/-- Witness for C8 (amended): a two-row batch in which every row
succeeds reports a count equal to the number of buffers produced. -/
theorem completion_count_is_input_rows_witness :
    step3CompletionCount ⟨["A"], ["A"],
        [[("A", CellValue.str "x")], [("A", CellValue.str "y")]]⟩ =
      (generatePDFs libOk ⟨["A"], ["A"],
        [[("A", CellValue.str "x")], [("A", CellValue.str "y")]]⟩
        [mkField "A" 1] [(1, ⟨612, 792⟩)]).length :=
  (completion_count_is_input_rows libOk _ [mkField "A" 1] [(1, ⟨612, 792⟩)]).2
    (by decide)

/-- Claim C9: a cell value that is falsy in JavaScript (0, false, empty,
null, undefined) is stored by parseExcelFile as the empty string, and a
field whose bound column holds the empty string is skipped by
generatePDFs exactly as when the column is absent from the row. -/
theorem falsy_cell_stored_empty_and_skipped
    (headers : List String) (r : List CellValue)
    (lib : PdfLib) (pages : List Size) (previewSizes : List (Int × Size))
    (row : Row) (field : PDFField) :
    (∀ kv ∈ buildRow headers r, jsFalsy kv.2 = true → kv.2 = CellValue.str "") ∧
    (List.lookup field.columnName row = some (CellValue.str "") ∨
        List.lookup field.columnName row = none →
      processField lib pages previewSizes row field = none) := by
  refine ⟨buildRow_falsy_stored_empty headers r, fun h => ?_⟩
  apply processField_eq_none_of_skip_value
  left
  rcases h with h | h <;> simp [resolvedValue, h, jsFalsy, jsToString]

/-- Witness for C9: the row built from the single cell 0 stores the
empty string under column "A", and the field bound to "A" is skipped. -/
theorem falsy_cell_stored_empty_and_skipped_witness :
    (("A", CellValue.str "") : String × CellValue).2 = CellValue.str "" ∧
    processField libOk [⟨612, 792⟩] [(1, ⟨612, 792⟩)]
      [("A", CellValue.str "")] (mkField "A" 1) = none := by
  have h := falsy_cell_stored_empty_and_skipped ["A"] [CellValue.num 0]
    libOk [⟨612, 792⟩] [(1, ⟨612, 792⟩)] [("A", CellValue.str "")] (mkField "A" 1)
  exact ⟨h.1 ("A", CellValue.str "") (by decide) (by decide), h.2 (Or.inl (by rfl))⟩

/-- Claim C1 (against the code as written): generatePDFs never issues an
image draw call — there is no code-image branch, the qrcode import is
unused — and a field flagged isQRCode with a non-empty row value is
drawn as text through page.drawText with the text transform. -/
theorem qr_flagged_field_drawn_as_text :
    (∀ (lib : PdfLib) (data : ExcelData) (fields : List PDFField)
        (previewSizes : List (Int × Size)),
      (generatePDFs lib data fields previewSizes).all
        (fun buf => buf.all (fun op => !op.isImage)) = true) ∧
    generatePDFs libOk ⟨["A"], ["A"], [[("A", CellValue.str "HELLO")]]⟩
        [mkQRField "A" 1] [(1, ⟨612, 792⟩)] =
      [[DrawOp.text "HELLO" (10 * (612 / 612))
          (792 - 20 * (612 / 612) - (12 * 1 * (612 / 612)) * (4 / 5))
          (12 * 1 * (612 / 612)) (hexToRgb "#000000") (-(0 : ℚ))]] := by
  constructor
  · intro lib data fields previewSizes
    rw [List.all_eq_true]
    intro buf hbuf
    rw [List.all_eq_true]
    intro op hop
    obtain ⟨row, hrow, hpr⟩ := List.mem_filterMap.mp hbuf
    unfold processRow at hpr
    cases hload : lib.load with
    | none => rw [hload] at hpr; cases hpr
    | some pages =>
      rw [hload] at hpr
      simp only [] at hpr
      split at hpr
      · injection hpr with hpr
        subst hpr
        obtain ⟨f, hf, hpf⟩ := List.mem_filterMap.mp hop
        rw [processField_some_not_image lib pages previewSizes row f op hpf]
        rfl
      · cases hpr
  · rfl

end FormWeaver
